import Mathlib

/-!
Shallow embedding of the DocuScope AI repository (dkumi12/Local-rag-agent).

The repository has two entry points over a single pipeline:
  * `src/main.py`  — CLI: class `DocuScopeAI` with `initialize_models`,
    `validate_file`, `load_document`, `ask_question`, `interactive_session`,
    plus a `main` driver with exit codes.
  * `src/app.py`   — Streamlit web app: `process_document` and a `main`
    request handler with a temp-file `finally` cleanup.

External collaborators (Ollama models, Chroma, the loaders, the QA chain
call) are modelled by explicit outcome parameters: each place where the
Python code calls into a library that can succeed or raise takes a value
describing what that call did, and the embedding computes exactly what the
Python control flow then does with it.

Strings model Python `str`; `.strip()`, `.lower()`, `.endswith()` and
slicing are modelled by structurally recursive functions on the
character list (`pystrip`, `pylower`, `pyEndsWith`, `pyslice`), so that
every definition evaluates by kernel reduction on concrete inputs.
-/

set_option autoImplicit false

namespace DocuScope

/-- A document chunk as produced by the langchain loaders: the only field
the repository reads is `page_content`. -/
structure Doc where
  page_content : String
deriving DecidableEq, Repr

/-- Python `s[:n]` on a `str`: take the first `n` code points. -/
def pyslice (s : String) (n : Nat) : String :=
  String.mk (s.toList.take n)

/-- Python `s.lower()` (over the ASCII range the repository compares). -/
def pylower (s : String) : String :=
  String.mk (s.toList.map Char.toLower)

/-- Python `s.strip()`: remove leading and trailing whitespace. -/
def pystrip (s : String) : String :=
  String.mk
    (((s.toList.dropWhile Char.isWhitespace).reverse.dropWhile
        Char.isWhitespace).reverse)

/-- Python `s.endswith(t)`. -/
def pyEndsWith (s t : String) : Bool :=
  decide (s.toList.drop (s.toList.length - t.toList.length) = t.toList)

/-- Split a character list at a separator character. -/
def splitChar (c : Char) : List Char → List (List Char)
  | [] => [[]]
  | a :: rest =>
    match splitChar c rest with
    | [] => [[]]
    | g :: gs => if a = c then [] :: g :: gs else (a :: g) :: gs

/-- Index of the last `'.'` in a character list, if any. -/
def lastDotIdx : List Char → Option Nat
  | [] => none
  | c :: cs =>
    match lastDotIdx cs with
    | some i => some (i + 1)
    | none => if c = '.' then some 0 else none

/-- The final path component, as `pathlib.Path(p).name` (POSIX separators). -/
def fileName (p : String) : String :=
  String.mk (((splitChar '/' p.toList).reverse).headD p.toList)

/-- `pathlib.Path(p).suffix`: the extension of the final component,
including the dot; empty when the name has no dot, starts with its only
dot, or ends with the dot. -/
def pySuffix (p : String) : String :=
  let n := fileName p
  match lastDotIdx n.toList with
  | some i =>
    if 0 < i ∧ i + 1 < n.toList.length then String.mk (n.toList.drop i) else ""
  | none => ""

/-- The QA chain built by `RetrievalQA.from_chain_type` in `load_document` /
`process_document`: a retriever over the indexed chunks with its
`search_kwargs` `k`, the models it was built from, and
`return_source_documents`. -/
structure QaChain where
  k : Nat
  embeddingModel : Option String
  llmModel : Option String
  return_source_documents : Bool
  docs : List Doc
deriving DecidableEq, Repr

/-- The `DocuScopeAI` instance state: `__init__` sets all three to `None`. -/
structure Session where
  qa_chain : Option QaChain
  embedding : Option String
  llm : Option String
deriving DecidableEq, Repr

/-- `DocuScopeAI.__init__`. -/
def Session.init : Session := ⟨none, none, none⟩

/-- What the two Ollama constructor calls in `initialize_models` did:
both succeed, the embedding constructor raises, or the LLM constructor
raises (after the embedding was already assigned). -/
inductive InitOutcome where
  | ok
  | failEmbed
  | failLlm
deriving DecidableEq, Repr

/-- `DocuScopeAI.initialize_models`: assigns `self.embedding` then
`self.llm`; any exception is caught and `False` returned, leaving the
fields assigned so far. -/
def initialize_models (s : Session) : InitOutcome → Session × Bool
  | .ok => ({ s with embedding := some "mxbai-embed-large",
                     llm := some "llama3.2:3b" }, true)
  | .failEmbed => (s, false)
  | .failLlm => ({ s with embedding := some "mxbai-embed-large" }, false)

/-- What the filesystem says about a path: `Path.exists()` /
`Path.is_file()`. -/
inductive FileStat where
  | missing
  | notAFile
  | file
deriving DecidableEq, Repr

/-- The distinct rejection branches of `validate_file`, one per printed
error message. -/
inductive ValidateResult where
  | noPath
  | notFound
  | notAFile
  | unsupported
  | ok
deriving DecidableEq, Repr

/-- `DocuScopeAI.validate_file`: empty path, existence, regular-file and
extension checks, in that order; the extension check lowercases the
suffix and compares with `.csv` / `.pdf`. -/
def validate_file (file_path : String) (st : FileStat) : ValidateResult :=
  if file_path = "" then .noPath
  else match st with
  | .missing => .notFound
  | .notAFile => .notAFile
  | .file =>
    if pylower (pySuffix file_path) = ".csv" ∨
       pylower (pySuffix file_path) = ".pdf" then .ok
    else .unsupported

/-- What the external library calls inside `load_document` /
`process_document` did: `parse` is the result of `loader.load()` (`none`
when the loader construction or `load()` raised), `chromaOk` whether
`Chroma.from_documents` returned, `chainOk` whether
`RetrievalQA.from_chain_type` returned. -/
structure LoadWorld where
  parse : Option (List Doc)
  chromaOk : Bool
  chainOk : Bool
deriving DecidableEq, Repr

/-- The error branch a failed load took, one per printed message. -/
inductive LoadErr where
  | unsupported
  | empty
  | exception
deriving DecidableEq, Repr

/-- Result of `load_document`: the session afterwards, the returned Bool,
which error (if any), and whether a loader was constructed and whether
`Chroma.from_documents` was invoked. -/
structure LoadResult where
  session : Session
  success : Bool
  error : Option LoadErr
  loaderConstructed : Bool
  indexAttempted : Bool
deriving DecidableEq, Repr

/-- `DocuScopeAI.load_document`: dispatch on `path.suffix.lower()`,
`loader.load()`, the empty-docs check, `Chroma.from_documents`, then
`RetrievalQA.from_chain_type` with `search_kwargs={"k": 4}` and
`return_source_documents=True`; `self.qa_chain` is assigned only after
all of these returned; every exception is caught and `False` returned. -/
def load_document (s : Session) (file_path : String) (w : LoadWorld) :
    LoadResult :=
  if pylower (pySuffix file_path) = ".csv" ∨
     pylower (pySuffix file_path) = ".pdf" then
    match w.parse with
    | none => ⟨s, false, some .exception, true, false⟩
    | some docs =>
      if docs = [] then ⟨s, false, some .empty, true, false⟩
      else if w.chromaOk then
        if w.chainOk then
          let chain : QaChain := ⟨4, s.embedding, s.llm, true, docs⟩
          ⟨{ s with qa_chain := some chain }, true, none, true, true⟩
        else ⟨s, false, some .exception, true, true⟩
      else ⟨s, false, some .exception, true, true⟩
  else ⟨s, false, some .unsupported, false, false⟩

/-- The value the external QA-chain call `self.qa_chain({"query": q})`
produced: the answer text and the retrieved source documents (`none` when
the call raised). -/
structure QueryResult where
  result : String
  source_documents : List Doc
deriving DecidableEq, Repr

/-- Result of `ask_question`: the returned value and whether the QA chain
(the retrieval pipeline and answer generator) was invoked at all. -/
structure AskResult where
  result : Option QueryResult
  pipelineInvoked : Bool
deriving DecidableEq, Repr

/-- `DocuScopeAI.ask_question`: `if not self.qa_chain` return `None`
without calling the chain; otherwise call it, catching exceptions. -/
def ask_question (s : Session) (call : Option QueryResult) : AskResult :=
  match s.qa_chain with
  | none => ⟨none, false⟩
  | some _ =>
    match call with
    | some r => ⟨some r, true⟩
    | none => ⟨none, true⟩

/-- Result of the web variant's `process_document`. -/
structure ProcResult where
  chain : Option QaChain
  error : Option LoadErr
  loaderConstructed : Bool
  indexAttempted : Bool
deriving DecidableEq, Repr

/-- `app.process_document` (src/app.py): dispatches on
`file_path.endswith(".csv")` / `file_path.endswith(".pdf")` — a
case-sensitive comparison, unlike the CLI's `suffix.lower()` — then the
same load / empty-check / Chroma / `RetrievalQA.from_chain_type`
sequence with `search_kwargs={"k": 4}`; returns the chain or `None`. -/
def process_document (file_path : String) (embedding llm : String)
    (w : LoadWorld) : ProcResult :=
  if pyEndsWith file_path ".csv" ∨ pyEndsWith file_path ".pdf" then
    match w.parse with
    | none => ⟨none, some .exception, true, false⟩
    | some docs =>
      if docs = [] then ⟨none, some .empty, true, false⟩
      else if w.chromaOk then
        if w.chainOk then
          let chain : QaChain := ⟨4, some embedding, some llm, true, docs⟩
          ⟨some chain, none, true, true⟩
        else ⟨none, some .exception, true, true⟩
      else ⟨none, some .exception, true, true⟩
  else ⟨none, some .unsupported, false, false⟩

/-- The source-snippet selection loop shared by both front ends: walk the
stripped `page_content` of the documents, keeping a snippet iff it is not
in `seen` and its length exceeds 10, then adding it to `seen`. Returns
the accepted snippets in order. -/
def selectSnippets : List String → List String → List String
  | [], _ => []
  | d :: rest, seen =>
    if d ∉ seen ∧ d.length > 10 then d :: selectSnippets rest (d :: seen)
    else selectSnippets rest seen

/-- The snippets the CLI `interactive_session` accepts for display:
iterates `result["source_documents"][:3]`, strips each `page_content`. -/
def cliSources (docs : List Doc) : List String :=
  selectSnippets ((docs.take 3).map (fun d => pystrip d.page_content)) []

/-- What the CLI actually prints per accepted snippet: `snippet[:200]`
followed by `"..."`. -/
def cliDisplayed (docs : List Doc) : List String :=
  (cliSources docs).map (fun s => pyslice s 200 ++ "...")

/-- The snippets the web handler accepts for display: iterates all of
`result["source_documents"]`, same filter. -/
def webSources (docs : List Doc) : List String :=
  selectSnippets (docs.map (fun d => pystrip d.page_content)) []

/-- What the web handler renders per accepted snippet: `snippet[:500]`
inside a code block with a trailing `"..."`. -/
def webDisplayed (docs : List Doc) : List String :=
  (webSources docs).map (fun s => pyslice s 500 ++ "...")

/-- Outcome of one iteration of the CLI `interactive_session` loop. -/
inductive CliStep where
  | exited
  | skipped
  | answered (r : AskResult)
deriving DecidableEq, Repr

/-- One iteration of `interactive_session`: strip the input, break on a
sentinel word, `continue` on an empty query, otherwise call
`ask_question`. Also returns whether `ask_question` was reached. -/
def interactive_step (s : Session) (raw : String)
    (call : Option QueryResult) : CliStep × Bool :=
  let query := pystrip raw
  if pylower query = "exit" ∨ pylower query = "quit" ∨
     pylower query = "q" ∨ pylower query = "bye" then (.exited, false)
  else if query = "" then (.skipped, false)
  else (.answered (ask_question s call), true)

/-- Result of the web handler's Ask branch. -/
structure WebAskResult where
  pipelineInvoked : Bool
  answered : Option QueryResult
  warnedBlank : Bool
deriving DecidableEq, Repr

/-- The web `main`'s Ask-button branch: `if query.strip():` run the chain
(catching exceptions), else warn without touching the pipeline. -/
def web_ask (query : String) (call : Option QueryResult) : WebAskResult :=
  if pystrip query = "" then ⟨false, none, true⟩
  else
    match call with
    | some r => ⟨true, some r, false⟩
    | none => ⟨true, none, false⟩

/-- `sys.argv[1]` if present, else what `get_file_path` returned
(`None` encodes the user interrupting / closing input). -/
def resolvedPath (argv1 prompted : Option String) : Option String :=
  match argv1 with
  | some a => some a
  | none => prompted

/-- `main` in src/main.py, as the process exit code it produces:
`initialize_models` failing exits 1; no file path (user declined) exits 0;
`validate_file` failing exits 1; `load_document` failing exits 1;
otherwise the interactive session runs and the process ends with 0. -/
def mainExit (init : InitOutcome) (argv1 prompted : Option String)
    (st : FileStat) (w : LoadWorld) : Nat :=
  if (initialize_models Session.init init).2 then
    match resolvedPath argv1 prompted with
    | none => 0
    | some p =>
      if p = "" then 0
      else if validate_file p st ≠ .ok then 1
      else if (load_document (initialize_models Session.init init).1 p w).success
        then 0
      else 1
  else 1

/-- How far the web handler's `try` body got before an exception (or
completion): writing the temp file raised, or document processing /
querying ran to whatever end — every non-save failure is caught inside
the body, so the body completes. -/
inductive WebPhase where
  | saveRaised (fileCreated : Bool)
  | bodyRan (processOk : Bool)
deriving DecidableEq, Repr

/-- Result of one web `main` upload interaction, tracking the temp file. -/
structure WebRunResult where
  cleanupRan : Bool
  tempFileRemains : Bool
  removeCalled : Bool
deriving DecidableEq, Repr

/-- The upload branch of the web `main`: write `temp_<name>`, process and
answer inside `try`, and in `finally` remove the temp file if it exists.
`WebPhase.saveRaised created` records whether `open` had already created
the file when the write raised; in `bodyRan` the file exists. -/
def webUploadRun (phase : WebPhase) : WebRunResult :=
  let tempExists :=
    match phase with
    | .saveRaised created => created
    | .bodyRan _ => true
  if tempExists then ⟨true, false, true⟩
  else ⟨true, false, false⟩

/-- Events a `DocuScopeAI` instance can undergo, each carrying the
outcome of its external calls. -/
inductive Event where
  | init (o : InitOutcome)
  | load (path : String) (w : LoadWorld)
  | ask (call : Option QueryResult)
deriving Repr

/-- State transition of one event. -/
def stepEvent (s : Session) : Event → Session
  | .init o => (initialize_models s o).1
  | .load p w => (load_document s p w).session
  | .ask _ => s

/-- Run a sequence of events from a session. -/
def runEvents (s : Session) : List Event → Session
  | [] => s
  | e :: es => runEvents (stepEvent s e) es

/-- Whether an event is a `load_document` call that returned `True`
(its success depends only on the path and the external outcomes). -/
def eventLoadSucceeds : Event → Bool
  | .load p w => (load_document Session.init p w).success
  | _ => false

/-! ### Helper lemmas -/

/-- Whether `load_document` returns `True` depends only on the path and the
external outcomes, not on the session it starts from. -/
lemma load_document_success_indep (s s' : Session) (p : String)
    (w : LoadWorld) :
    (load_document s p w).success = (load_document s' p w).success := by
  rcases w with ⟨parse, co, ck⟩
  by_cases hs : pylower (pySuffix p) = ".csv" ∨ pylower (pySuffix p) = ".pdf"
  · cases parse with
    | none => simp [load_document, hs]
    | some docs =>
      by_cases hd : docs = []
      · simp [load_document, hs, hd]
      · cases co <;> cases ck <;> simp [load_document, hs, hd]
  · simp [load_document, hs]

/-- A `load_document` call that returned `False` left the session exactly
as it was. -/
lemma load_document_fail_session (s : Session) (p : String) (w : LoadWorld)
    (h : (load_document s p w).success = false) :
    (load_document s p w).session = s := by
  rcases w with ⟨parse, co, ck⟩
  by_cases hs : pylower (pySuffix p) = ".csv" ∨ pylower (pySuffix p) = ".pdf"
  · cases parse with
    | none => simp [load_document, hs]
    | some docs =>
      by_cases hd : docs = []
      · simp [load_document, hs, hd]
      · cases co <;> cases ck <;> simp_all [load_document, hs, hd]
  · simp [load_document, hs]

/-- `initialize_models` never touches `qa_chain`. -/
lemma initialize_models_qa_chain (s : Session) (o : InitOutcome) :
    ((initialize_models s o).1).qa_chain = s.qa_chain := by
  cases o <;> rfl

/-- Along any event sequence with no successful `load_document`,
`qa_chain` stays `None`. -/
lemma runEvents_no_load_qa_chain : ∀ (es : List Event) (s : Session),
    (∀ e ∈ es, eventLoadSucceeds e = false) → s.qa_chain = none →
    (runEvents s es).qa_chain = none := by
  intro es
  induction es with
  | nil => intro s _ h; exact h
  | cons e es ih =>
    intro s hall hn
    have hrest : ∀ e' ∈ es, eventLoadSucceeds e' = false :=
      fun e' h' => hall e' (List.mem_cons_of_mem _ h')
    have he : eventLoadSucceeds e = false := hall e (List.mem_cons_self _ _)
    cases e with
    | init o =>
      refine ih _ hrest ?_
      show ((initialize_models s o).1).qa_chain = none
      rw [initialize_models_qa_chain]; exact hn
    | load p w =>
      have h0 : (load_document Session.init p w).success = false := by
        simpa [eventLoadSucceeds] using he
      have hsf : (load_document s p w).success = false := by
        rw [load_document_success_indep s Session.init]; exact h0
      refine ih _ hrest ?_
      show ((load_document s p w).session).qa_chain = none
      rw [load_document_fail_session s p w hsf]; exact hn
    | ask c => exact ih _ hrest hn

/-- Every snippet the selection loop keeps is pairwise distinct and has
not been seen before. -/
lemma selectSnippets_nodup_aux : ∀ (l seen : List String),
    (selectSnippets l seen).Nodup ∧
    ∀ x ∈ selectSnippets l seen, x ∉ seen := by
  intro l
  induction l with
  | nil => intro seen; simp [selectSnippets]
  | cons d rest ih =>
    intro seen
    by_cases hc : d ∉ seen ∧ d.length > 10
    · rw [selectSnippets, if_pos hc]
      obtain ⟨hnd, hsub⟩ := ih (d :: seen)
      refine ⟨List.nodup_cons.mpr ⟨?_, hnd⟩, ?_⟩
      · intro hmem
        exact (hsub d hmem) (List.mem_cons_self _ _)
      · intro x hx
        rcases List.mem_cons.mp hx with rfl | hx'
        · exact hc.1
        · intro hxseen
          exact hsub x hx' (List.mem_cons_of_mem _ hxseen)
    · rw [selectSnippets, if_neg hc]
      exact ih seen

/-- Every snippet the selection loop keeps has length above 10. -/
lemma selectSnippets_length_gt : ∀ (l seen : List String) (x : String),
    x ∈ selectSnippets l seen → x.length > 10 := by
  intro l
  induction l with
  | nil => intro seen x hx; simp [selectSnippets] at hx
  | cons d rest ih =>
    intro seen x hx
    by_cases hc : d ∉ seen ∧ d.length > 10
    · rw [selectSnippets, if_pos hc] at hx
      rcases List.mem_cons.mp hx with rfl | hx'
      · exact hc.2
      · exact ih _ _ hx'
    · rw [selectSnippets, if_neg hc] at hx
      exact ih _ _ hx

/-- The selection loop keeps at most as many snippets as it was given. -/
lemma selectSnippets_length_le : ∀ (l seen : List String),
    (selectSnippets l seen).length ≤ l.length := by
  intro l
  induction l with
  | nil => intro seen; simp [selectSnippets]
  | cons d rest ih =>
    intro seen
    by_cases hc : d ∉ seen ∧ d.length > 10
    · rw [selectSnippets, if_pos hc]
      simpa using Nat.succ_le_succ (ih (d :: seen))
    · rw [selectSnippets, if_neg hc]
      exact Nat.le_succ_of_le (ih seen)

/-- `s[:n]` has at most `n` characters. -/
lemma pyslice_length_le (s : String) (n : Nat) :
    (pyslice s n).length ≤ n := by
  show (s.toList.take n).length ≤ n
  rw [List.length_take]
  exact min_le_left _ _

/-- Any `load_document` call on a supported extension constructs a
loader, whatever happens afterwards. -/
lemma load_document_loader_of_supported (s : Session) (p : String)
    (w : LoadWorld)
    (h : pylower (pySuffix p) = ".csv" ∨ pylower (pySuffix p) = ".pdf") :
    (load_document s p w).loaderConstructed = true := by
  rcases w with ⟨parse, co, ck⟩
  cases parse with
  | none => simp [load_document, h]
  | some docs =>
    by_cases hd : docs = []
    · simp [load_document, h, hd]
    · cases co <;> cases ck <;> simp [load_document, h, hd]

/-- A successful `load_document` stored exactly the chain built by
`RetrievalQA.from_chain_type`: `k = 4`, the session's models,
`return_source_documents = True`, over the parsed chunks. -/
lemma load_document_success_chain (s : Session) (p : String) (w : LoadWorld)
    (h : (load_document s p w).success = true) :
    ∃ docs, w.parse = some docs ∧ docs ≠ [] ∧
      (load_document s p w).session.qa_chain =
        some ⟨4, s.embedding, s.llm, true, docs⟩ := by
  rcases w with ⟨parse, co, ck⟩
  by_cases hs : pylower (pySuffix p) = ".csv" ∨ pylower (pySuffix p) = ".pdf"
  · cases parse with
    | none => simp [load_document, hs] at h
    | some docs =>
      by_cases hd : docs = []
      · simp [load_document, hs, hd] at h
      · cases co <;> cases ck <;> simp_all [load_document, hs, hd]
  · simp [load_document, hs] at h

/-- A chain returned by the web `process_document` is exactly the one
`RetrievalQA.from_chain_type` built: `k = 4` over the given models. -/
lemma process_document_chain (p e l : String) (w : LoadWorld) (c : QaChain)
    (h : (process_document p e l w).chain = some c) :
    ∃ docs, w.parse = some docs ∧ docs ≠ [] ∧
      c = ⟨4, some e, some l, true, docs⟩ := by
  rcases w with ⟨parse, co, ck⟩
  by_cases hs : pyEndsWith p ".csv" = true ∨ pyEndsWith p ".pdf" = true
  · cases parse with
    | none => simp [process_document, hs] at h
    | some docs =>
      by_cases hd : docs = []
      · simp [process_document, hs, hd] at h
      · cases co <;> cases ck <;> simp_all [process_document, hs, hd]
  · simp [process_document, hs] at h

/-! ### Claims -/

/-- C1: for every query, calling `ask_question` before any successful
`load_document` — i.e. after any event history in which no `load_document`
call returned `True` — finds `qa_chain` unset, returns no result, and
never invokes the QA chain (retrieval pipeline / answer generator). -/
theorem claim_C1 (es : List Event) (call : Option QueryResult)
    (h : ∀ e ∈ es, eventLoadSucceeds e = false) :
    (runEvents Session.init es).qa_chain = none ∧
    (ask_question (runEvents Session.init es) call).result = none ∧
    (ask_question (runEvents Session.init es) call).pipelineInvoked = false := by
  have hn : (runEvents Session.init es).qa_chain = none :=
    runEvents_no_load_qa_chain es Session.init h rfl
  have ha : ask_question (runEvents Session.init es) call = ⟨none, false⟩ := by
    rw [ask_question.eq_def, hn]
  exact ⟨hn, by rw [ha], by rw [ha]⟩

/-- Witness for C1: a concrete history of a model init, an empty-parse
load and an unsupported-extension load, followed by an ask. -/
theorem claim_C1_witness :
    (runEvents Session.init
      [Event.init .ok,
       Event.load "data.csv" ⟨some [], true, true⟩,
       Event.load "notes.txt" ⟨some [⟨"some long content here"⟩], true, true⟩]).qa_chain
      = none ∧
    (ask_question (runEvents Session.init
      [Event.init .ok,
       Event.load "data.csv" ⟨some [], true, true⟩,
       Event.load "notes.txt" ⟨some [⟨"some long content here"⟩], true, true⟩])
      (some ⟨"an answer", []⟩)).result = none ∧
    (ask_question (runEvents Session.init
      [Event.init .ok,
       Event.load "data.csv" ⟨some [], true, true⟩,
       Event.load "notes.txt" ⟨some [⟨"some long content here"⟩], true, true⟩])
      (some ⟨"an answer", []⟩)).pipelineInvoked = false :=
  claim_C1 _ _ (by decide)

/-- C2: whenever `load_document` fails — unsupported extension, loader
exception, empty parse, or an exception while embedding/indexing/building
the chain — the session (in particular any previously built `qa_chain`)
is left exactly as it was. -/
theorem claim_C2 (s : Session) (p : String) (w : LoadWorld)
    (h : (load_document s p w).success = false) :
    (load_document s p w).session = s ∧
    (load_document s p w).session.qa_chain = s.qa_chain := by
  have := load_document_fail_session s p w h
  exact ⟨this, by rw [this]⟩

/-- Witness for C2: a session holding a working chain survives a failed
load (Chroma raising on a supported, non-empty file) unchanged. -/
theorem claim_C2_witness :
    (load_document
      ⟨some ⟨4, some "mxbai-embed-large", some "llama3.2:3b", true,
         [⟨"prior chunk contents"⟩]⟩,
       some "mxbai-embed-large", some "llama3.2:3b"⟩
      "report.pdf" ⟨some [⟨"fresh chunk"⟩], false, true⟩).success = false ∧
    (load_document
      ⟨some ⟨4, some "mxbai-embed-large", some "llama3.2:3b", true,
         [⟨"prior chunk contents"⟩]⟩,
       some "mxbai-embed-large", some "llama3.2:3b"⟩
      "report.pdf" ⟨some [⟨"fresh chunk"⟩], false, true⟩).session =
      ⟨some ⟨4, some "mxbai-embed-large", some "llama3.2:3b", true,
         [⟨"prior chunk contents"⟩]⟩,
       some "mxbai-embed-large", some "llama3.2:3b"⟩ :=
  ⟨by decide, (claim_C2 _ _ _ (by decide)).1⟩

/-- C5: on a supported file whose parse yields zero chunks, both
variants fail with the empty-document error, never invoke
`Chroma.from_documents`, and leave the session unchanged. -/
theorem claim_C5 (s : Session) (p q e l : String) (w : LoadWorld)
    (hsup : pylower (pySuffix p) = ".csv" ∨ pylower (pySuffix p) = ".pdf")
    (hq : pyEndsWith q ".csv" ∨ pyEndsWith q ".pdf")
    (hempty : w.parse = some []) :
    (load_document s p w).success = false ∧
    (load_document s p w).error = some .empty ∧
    (load_document s p w).indexAttempted = false ∧
    (load_document s p w).session = s ∧
    (process_document q e l w).chain = none ∧
    (process_document q e l w).error = some .empty ∧
    (process_document q e l w).indexAttempted = false := by
  by_cases hq1 : pyEndsWith q ".csv" = true
  · simp [load_document, process_document, hsup, hq1, hempty]
  · have hq2 : pyEndsWith q ".pdf" = true := hq.resolve_left hq1
    simp [load_document, process_document, hsup, hq1, hq2, hempty]

/-- Witness for C5: concrete empty parses for a CSV in the CLI and a PDF
upload in the web app. -/
theorem claim_C5_witness :
    (pylower (pySuffix "data.csv") = ".csv" ∨
     pylower (pySuffix "data.csv") = ".pdf") ∧
    (pyEndsWith "temp_doc.pdf" ".csv" ∨ pyEndsWith "temp_doc.pdf" ".pdf") ∧
    (load_document Session.init "data.csv" ⟨some [], true, true⟩).success
      = false ∧
    (load_document Session.init "data.csv"
      ⟨some [], true, true⟩).indexAttempted = false ∧
    (process_document "temp_doc.pdf" "mxbai-embed-large" "llama3.2:3b"
      ⟨some [], true, true⟩).chain = none := by
  have h := claim_C5 Session.init "data.csv" "temp_doc.pdf"
    "mxbai-embed-large" "llama3.2:3b" ⟨some [], true, true⟩
    (by decide) (by decide) rfl
  exact ⟨by decide, by decide, h.1, h.2.2.1, h.2.2.2.2.1⟩

/-- C6: a blank query (empty after stripping) is rejected without
invoking the pipeline in both the CLI loop (`continue` before
`ask_question`) and the web handler (warning instead of running the
chain). -/
theorem claim_C6 (s : Session) (raw q : String)
    (call call' : Option QueryResult)
    (hraw : pystrip raw = "") (hq : pystrip q = "") :
    interactive_step s raw call = (.skipped, false) ∧
    web_ask q call' = ⟨false, none, true⟩ := by
  constructor
  · rw [interactive_step.eq_def]
    simp only [hraw]
    rfl
  · rw [web_ask.eq_def, if_pos hq]

/-- Witness for C6: a whitespace-only CLI input and an empty web query. -/
theorem claim_C6_witness :
    pystrip "   " = "" ∧ pystrip "" = "" ∧
    interactive_step Session.init "   " (some ⟨"ans", []⟩)
      = (.skipped, false) ∧
    web_ask "" (some ⟨"ans", []⟩) = ⟨false, none, true⟩ := by
  have h := claim_C6 Session.init "   " "" (some ⟨"ans", []⟩)
    (some ⟨"ans", []⟩) (by decide) (by decide)
  exact ⟨by decide, by decide, h.1, h.2⟩

/-- C7: for any retrieved source documents, the snippet lists selected
for display by the CLI session and by the web handler contain no two
entries with the same (stripped) text. -/
theorem claim_C7 (docs : List Doc) :
    (cliSources docs).Nodup ∧ (webSources docs).Nodup :=
  ⟨(selectSnippets_nodup_aux _ []).1, (selectSnippets_nodup_aux _ []).1⟩

/-- C3, counterexample: the claim asserts paths with extensions like
`.CSV` are accepted by document loading, but the web variant's
`process_document` compares with case-sensitive `endswith`, so the
upload `temp_data.CSV` is rejected as an unsupported file type with no
loader constructed — even though the CLI's case-insensitive
`validate_file` accepts the very same path. -/
theorem claim_C3_counterexample :
    (process_document "temp_data.CSV" "mxbai-embed-large" "llama3.2:3b"
      ⟨some [⟨"name,rating: Mario Pizza,5"⟩], true, true⟩).chain = none ∧
    (process_document "temp_data.CSV" "mxbai-embed-large" "llama3.2:3b"
      ⟨some [⟨"name,rating: Mario Pizza,5"⟩], true, true⟩).error
      = some .unsupported ∧
    (process_document "temp_data.CSV" "mxbai-embed-large" "llama3.2:3b"
      ⟨some [⟨"name,rating: Mario Pizza,5"⟩], true, true⟩).loaderConstructed
      = false ∧
    validate_file "temp_data.CSV" .file = .ok := by
  decide

/-- C3 as amended: in the CLI, extensions are compared case-insensitively
— any path whose lowercased suffix is not `.csv`/`.pdf` fails as
unsupported before a loader is constructed, and suffixes like `.CSV` are
accepted — while the web variant's `process_document` compares
case-sensitively with `endswith`, rejecting everything that does not end
in lowercase `.csv`/`.pdf` (including `.CSV`) before constructing a
loader. -/
theorem claim_C3 (p q r : String) (s : Session) (w w' w'' : LoadWorld)
    (e l : String)
    (hp : p ≠ "")
    (hcli : ¬(pylower (pySuffix p) = ".csv" ∨ pylower (pySuffix p) = ".pdf"))
    (hq : pylower (pySuffix q) = ".csv" ∨ pylower (pySuffix q) = ".pdf")
    (hr : ¬(pyEndsWith r ".csv" = true ∨ pyEndsWith r ".pdf" = true)) :
    validate_file p .file = .unsupported ∧
    (load_document s p w).loaderConstructed = false ∧
    (load_document s p w).error = some .unsupported ∧
    (load_document s p w).session = s ∧
    validate_file q .file = .ok ∧
    (load_document s q w').loaderConstructed = true ∧
    (process_document r e l w'').loaderConstructed = false ∧
    (process_document r e l w'').error = some .unsupported ∧
    (process_document r e l w'').chain = none := by
  have hq0 : q ≠ "" := by rintro rfl; revert hq; decide
  refine ⟨?_, ?_, ?_, ?_, ?_,
    load_document_loader_of_supported s q w' hq, ?_, ?_, ?_⟩ <;>
    simp [validate_file, load_document, process_document, hp, hcli, hq, hq0,
      hr]

/-- Witness for C3 as amended: `report.txt` is rejected by both
variants, `data.CSV` is accepted by the CLI, `temp_data.CSV` is rejected
by the web variant. -/
theorem claim_C3_witness :
    ("report.txt" ≠ "") ∧
    (¬(pylower (pySuffix "report.txt") = ".csv" ∨
       pylower (pySuffix "report.txt") = ".pdf")) ∧
    (pylower (pySuffix "data.CSV") = ".csv" ∨
     pylower (pySuffix "data.CSV") = ".pdf") ∧
    (¬(pyEndsWith "temp_data.CSV" ".csv" = true ∨
       pyEndsWith "temp_data.CSV" ".pdf" = true)) ∧
    validate_file "report.txt" .file = .unsupported ∧
    validate_file "data.CSV" .file = .ok ∧
    (process_document "temp_data.CSV" "e" "l"
      ⟨some [⟨"some content"⟩], true, true⟩).error = some .unsupported := by
  have h := claim_C3 "report.txt" "data.CSV" "temp_data.CSV" Session.init
    ⟨some [⟨"some content"⟩], true, true⟩ ⟨some [⟨"some content"⟩], true, true⟩
    ⟨some [⟨"some content"⟩], true, true⟩ "e" "l"
    (by decide) (by decide) (by decide) (by decide)
  exact ⟨by decide, by decide, by decide, by decide, h.1, h.2.2.2.2.1,
    h.2.2.2.2.2.2.2.1⟩

/-- C4, counterexample: the retrieval count and model identities are not
configuration inputs anywhere in the pipeline — no invocation of
`load_document` or `process_document` can yield a chain with `k ≠ 4`,
and no successful `initialize_models` ever sets models other than
`mxbai-embed-large` / `llama3.2:3b`; there is no recognized options
input at all. -/
theorem claim_C4_counterexample :
    (¬ ∃ (s : Session) (p : String) (w : LoadWorld) (c : QaChain),
        (load_document s p w).success = true ∧
        (load_document s p w).session.qa_chain = some c ∧ c.k ≠ 4) ∧
    (¬ ∃ (p e l : String) (w : LoadWorld) (c : QaChain),
        (process_document p e l w).chain = some c ∧ c.k ≠ 4) ∧
    (¬ ∃ (s : Session) (o : InitOutcome),
        (initialize_models s o).2 = true ∧
        ((initialize_models s o).1.embedding ≠ some "mxbai-embed-large" ∨
         (initialize_models s o).1.llm ≠ some "llama3.2:3b")) := by
  refine ⟨?_, ?_, ?_⟩
  · rintro ⟨s, p, w, c, hsucc, hchain, hk⟩
    obtain ⟨docs, -, -, hq⟩ := load_document_success_chain s p w hsucc
    rw [hq] at hchain
    exact hk (by injection hchain with h; rw [← h])
  · rintro ⟨p, e, l, w, c, hchain, hk⟩
    obtain ⟨docs, -, -, hc⟩ := process_document_chain p e l w c hchain
    exact hk (by rw [hc])
  · rintro ⟨s, o, hok, hbad⟩
    cases o <;> simp_all [initialize_models]

/-- C4 as amended: `k` is hardcoded to 4 in both chain constructions,
`initialize_models` hardcodes `mxbai-embed-large` and `llama3.2:3b`, and
the chains are built from whatever models the session attributes hold —
configuration happens only by direct attribute assignment outside the
pipeline functions, never through options. -/
theorem claim_C4 (s : Session) (p : String) (w : LoadWorld) (c : QaChain)
    (p' e l : String) (w' : LoadWorld) (c' : QaChain)
    (h : (load_document s p w).success = true)
    (hc : (load_document s p w).session.qa_chain = some c)
    (hc' : (process_document p' e l w').chain = some c') :
    c.k = 4 ∧ c.embeddingModel = s.embedding ∧ c.llmModel = s.llm ∧
    c'.k = 4 ∧ c'.embeddingModel = some e ∧ c'.llmModel = some l ∧
    (initialize_models Session.init .ok).1.embedding
      = some "mxbai-embed-large" ∧
    (initialize_models Session.init .ok).1.llm = some "llama3.2:3b" := by
  obtain ⟨docs, -, -, hq⟩ := load_document_success_chain s p w h
  rw [hq] at hc
  obtain ⟨docs', -, -, hcc⟩ := process_document_chain p' e l w' c' hc'
  injection hc with hc
  rw [← hc, hcc]
  exact ⟨rfl, rfl, rfl, rfl, rfl, rfl, rfl, rfl⟩

/-- Witness for C4 as amended: a concrete successful CLI load and a
concrete successful web processing. -/
theorem claim_C4_witness :
    (load_document Session.init "reviews.csv"
      ⟨some [⟨"a row of the csv file"⟩], true, true⟩).success = true ∧
    (load_document Session.init "reviews.csv"
      ⟨some [⟨"a row of the csv file"⟩], true, true⟩).session.qa_chain
      = some ⟨4, none, none, true, [⟨"a row of the csv file"⟩]⟩ ∧
    (process_document "temp_reviews.csv" "mxbai-embed-large" "llama3.2:3b"
      ⟨some [⟨"a row of the csv file"⟩], true, true⟩).chain
      = some ⟨4, some "mxbai-embed-large", some "llama3.2:3b", true,
          [⟨"a row of the csv file"⟩]⟩ ∧
    ((4 : Nat) = 4 ∧ (none : Option String) = Session.init.embedding ∧
     (none : Option String) = Session.init.llm ∧ (4 : Nat) = 4 ∧
     some "mxbai-embed-large" = some "mxbai-embed-large" ∧
     some "llama3.2:3b" = some "llama3.2:3b" ∧
     (initialize_models Session.init .ok).1.embedding
       = some "mxbai-embed-large" ∧
     (initialize_models Session.init .ok).1.llm = some "llama3.2:3b") :=
  ⟨by decide, by decide, by decide,
   claim_C4 Session.init "reviews.csv"
     ⟨some [⟨"a row of the csv file"⟩], true, true⟩
     ⟨4, none, none, true, [⟨"a row of the csv file"⟩]⟩
     "temp_reviews.csv" "mxbai-embed-large" "llama3.2:3b"
     ⟨some [⟨"a row of the csv file"⟩], true, true⟩
     ⟨4, some "mxbai-embed-large", some "llama3.2:3b", true,
       [⟨"a row of the csv file"⟩]⟩
     (by decide) (by decide) (by decide)⟩

/-- C8: the CLI `main` exits 0 or 1, and exits 1 exactly when model
initialization failed, or a non-empty file path was supplied whose
validation failed or whose document load failed; no path (user declined)
and full success both exit 0. -/
theorem claim_C8 (init : InitOutcome) (argv1 prompted : Option String)
    (st : FileStat) (w : LoadWorld) :
    mainExit init argv1 prompted st w ≤ 1 ∧
    (mainExit init argv1 prompted st w = 1 ↔
      (initialize_models Session.init init).2 = false ∨
      ∃ p, resolvedPath argv1 prompted = some p ∧ p ≠ "" ∧
        (validate_file p st ≠ .ok ∨
         (load_document (initialize_models Session.init init).1 p w).success
           = false)) := by
  by_cases hi : (initialize_models Session.init init).2 = true
  · cases hr : resolvedPath argv1 prompted with
    | none => simp [mainExit, hi, hr]
    | some p =>
      by_cases hp : p = ""
      · simp [mainExit, hi, hr, hp]
      · by_cases hv : validate_file p st = .ok
        · by_cases hl :
            (load_document (initialize_models Session.init init).1 p w).success
              = true
          · simp [mainExit, hi, hr, hp, hv, hl]
          · simp [mainExit, hi, hr, hp, hv, hl]
        · simp [mainExit, hi, hr, hp, hv]
  · have hi' : (initialize_models Session.init init).2 = false :=
      Bool.not_eq_true _ ▸ Bool.eq_false_iff.mpr hi
    simp [mainExit, hi']

/-- C9: in the web variant, the scoped cleanup for the uploaded temp
file runs whether the save raised, processing failed, or everything
succeeded, and the temp file never survives the interaction. -/
theorem claim_C9 (ph : WebPhase) :
    (webUploadRun ph).cleanupRan = true ∧
    (webUploadRun ph).tempFileRemains = false := by
  cases ph with
  | saveRaised created => cases created <;> simp [webUploadRun]
  | bodyRan ok => simp [webUploadRun]

/-- C10: the CLI source list derives from at most the first 3 retrieved
chunks, each displayed snippet is the 200-character truncation (plus the
literal dots) — 500 in the web variant — and any chunk whose stripped
text has length at most 10 is suppressed from both source lists even if
unique. -/
theorem claim_C10 (docs : List Doc) (d : Doc)
    (hmem : d ∈ docs)
    (hshort : (pystrip d.page_content).length ≤ 10) :
    cliSources docs = cliSources (docs.take 3) ∧
    (cliSources docs).length ≤ 3 ∧
    ((cliDisplayed docs).all (fun t => decide (t.length ≤ 203))) = true ∧
    ((webDisplayed docs).all (fun t => decide (t.length ≤ 503))) = true ∧
    pystrip d.page_content ∉ cliSources docs ∧
    pystrip d.page_content ∉ webSources docs := by
  refine ⟨?_, ?_, ?_, ?_, ?_, ?_⟩
  · simp [cliSources, List.take_take]
  · calc (cliSources docs).length
        ≤ ((docs.take 3).map (fun d => pystrip d.page_content)).length :=
          selectSnippets_length_le _ _
      _ = (docs.take 3).length := List.length_map _ _
      _ ≤ 3 := List.length_take_le _ _
  · rw [List.all_eq_true]
    intro t ht
    rw [decide_eq_true_eq]
    obtain ⟨s, -, rfl⟩ := List.mem_map.mp ht
    have h1 : (pyslice s 200).length ≤ 200 := pyslice_length_le s 200
    have h2 : (pyslice s 200 ++ "...").length
        = (pyslice s 200).length + ("..." : String).length :=
      String.length_append _ _
    have h3 : ("..." : String).length = 3 := rfl
    omega
  · rw [List.all_eq_true]
    intro t ht
    rw [decide_eq_true_eq]
    obtain ⟨s, -, rfl⟩ := List.mem_map.mp ht
    have h1 : (pyslice s 500).length ≤ 500 := pyslice_length_le s 500
    have h2 : (pyslice s 500 ++ "...").length
        = (pyslice s 500).length + ("..." : String).length :=
      String.length_append _ _
    have h3 : ("..." : String).length = 3 := rfl
    omega
  · intro hIn
    have := selectSnippets_length_gt _ _ _ hIn
    omega
  · intro hIn
    have := selectSnippets_length_gt _ _ _ hIn
    omega

/-- Witness for C10: a short chunk among retrieved documents is
suppressed; the displayed lists obey the bounds. -/
theorem claim_C10_witness :
    Doc.mk "tiny" ∈ [Doc.mk "tiny",
      Doc.mk "this chunk is long enough to be displayed"] ∧
    (pystrip (Doc.mk "tiny").page_content).length ≤ 10 ∧
    (cliSources [Doc.mk "tiny",
        Doc.mk "this chunk is long enough to be displayed"] =
      cliSources ([Doc.mk "tiny",
        Doc.mk "this chunk is long enough to be displayed"].take 3) ∧
     (cliSources [Doc.mk "tiny",
        Doc.mk "this chunk is long enough to be displayed"]).length ≤ 3 ∧
     ((cliDisplayed [Doc.mk "tiny",
        Doc.mk "this chunk is long enough to be displayed"]).all
          (fun t => decide (t.length ≤ 203))) = true ∧
     ((webDisplayed [Doc.mk "tiny",
        Doc.mk "this chunk is long enough to be displayed"]).all
          (fun t => decide (t.length ≤ 503))) = true ∧
     pystrip (Doc.mk "tiny").page_content ∉
       cliSources [Doc.mk "tiny",
         Doc.mk "this chunk is long enough to be displayed"] ∧
     pystrip (Doc.mk "tiny").page_content ∉
       webSources [Doc.mk "tiny",
         Doc.mk "this chunk is long enough to be displayed"]) :=
  ⟨by decide, by decide,
   claim_C10 [Doc.mk "tiny",
     Doc.mk "this chunk is long enough to be displayed"]
     (Doc.mk "tiny") (by decide) (by decide)⟩

end DocuScope
